import Mathlib

/-!
Shallow embedding of `powerhose/client.py` (classes `Client` and `Pool`).

Times are rationals. The Python constructor multiplies the second-valued
timeouts by 1000, so `ClientState.timeout` and
`ClientState.timeout_max_overflow` are stored in milliseconds, exactly as
`self.timeout` and `self.timeout_max_overflow` are in the source. The
per-worker overflow counters are a total function `String → ℤ`, mirroring
`defaultdict(int)` (absent keys read as 0).

The wire is modelled as an environment: the serialized request string and
the poll deadline (the two values the code hands to the transport) map to
the observable behaviour of the exchange — the sequence of poll outcomes,
the decoded reply envelope, and the wall-clock duration measured by
`timed`. Exceptions are an explicit `Except` result.
-/

namespace Powerhose

/-- Modelled from the spec: `powerhose.job.Job` is not under `src/`. The
spec treats a Job as an opaque unit of work exposing a serialize-to-bytes
capability, constructible from a raw string; we model it as its payload
string with `serialize` exposing that payload. -/
structure Job where
  data : String
deriving DecidableEq, Repr

/-- Modelled from the spec: the serialize-to-bytes capability of a Job. -/
def Job.serialize (j : Job) : String := j.data

/-- Argument of `Client.execute` / `Client._execute`: a `Job` instance or a
raw string (`isinstance(job, str)` in the source). -/
inductive JobInput
  | str (s : String)
  | job (j : Job)
deriving DecidableEq, Repr

/-- Lines 141-142: `if isinstance(job, str): job = Job(job)`. -/
def wrapJob : JobInput → Job
  | .str s => ⟨s⟩
  | .job j => j

/-- Modelled from the spec: `powerhose.util.extract_result` is not under
`src/`. The spec's ReplyEnvelope: `(worker_id, success : bool, payload)`;
the unpacking `worker_pid, res, data = res` on line 81 fixes the order. -/
structure ReplyEnvelope where
  worker_pid : String
  success : Bool
  data : String
deriving DecidableEq, Repr

/-- One attempt of the `while True: poller.poll(...)` loop: the poll was
interrupted by EINTR, returned no event (deadline elapsed), returned a
POLLIN event, or raised a non-EINTR `zmq.ZMQError`. -/
inductive PollAttempt
  | interrupted
  | timedOut
  | gotReply
  | failed
deriving DecidableEq, Repr

/-- Terminal outcome of the poll loop. -/
inductive PollOutcome
  | isTimeout
  | isReply
  | isError
deriving DecidableEq, Repr

/-- The retry loop around `poller.poll` (lines 150-156 and 114-120): an
EINTR interruption is retried, anything else ends the loop. `none` means
the supplied attempt trace ended without a terminal outcome (the real loop
would still be waiting). -/
def pollLoop : List PollAttempt → Option PollOutcome
  | [] => none
  | .interrupted :: rest => pollLoop rest
  | .timedOut :: _ => some .isTimeout
  | .gotReply :: _ => some .isReply
  | .failed :: _ => some .isError

/-- Observable behaviour of one request/reply exchange: the poll attempts,
the decoded reply envelope (consulted only when a reply arrives), and the
wall-clock duration in seconds measured by `timed`. -/
structure WireResponse where
  attempts : List PollAttempt
  reply : ReplyEnvelope
  duration : ℚ

/-- The wire environment: serialized request string and poll deadline (ms)
determine the exchange's behaviour. -/
def WireEnv : Type := String → ℚ → WireResponse

/-- Exceptions the client code can raise or propagate. -/
inductive Exc
  | timeoutError (secs : ℚ)
  | noWorkerError
  | executionError (data : String)
  | zmqError
  | valueError
deriving DecidableEq, Repr

/-- State of a `Client` relevant to the claims. `timeout` and
`timeout_max_overflow` are in milliseconds (the constructor multiplies by
1000); `timeout_counters` is the per-worker overflow table; `kill_ctx`
records whether the client created its own context (line 44). -/
structure ClientState where
  timeout : ℚ
  timeout_max_overflow : ℚ
  timeout_overflows : ℤ
  timeout_counters : String → ℤ
  kill_ctx : Bool

/-- Source constants (lines 18-20). -/
def DEFAULT_TIMEOUT : ℚ := 5

def DEFAULT_TIMEOUT_MOVF : ℚ := 15 / 2

def DEFAULT_TIMEOUT_OVF : ℤ := 1

/-- `Client.__init__` (lines 40-57): `ctx_supplied` is whether a context
was passed (`ctx is not None`), so `kill_ctx = ctx is None`. -/
def Client.init (timeout timeout_max_overflow : ℚ) (timeout_overflows : ℤ)
    (ctx_supplied : Bool) : ClientState :=
  { timeout := timeout * 1000
    timeout_max_overflow := timeout_max_overflow * 1000
    timeout_counters := fun _ => 0
    timeout_overflows := timeout_overflows
    kill_ctx := !ctx_supplied }

/-- `Client._execute` (lines 140-161): wrap a raw string into a Job,
default the deadline to `timeout_max_overflow`, send the serialized job,
poll (retrying EINTR), and either hand back the decoded reply, raise
`TimeoutError(timeout / 1000)` when no event arrived, or propagate the
non-EINTR `ZMQError`. -/
def Client._execute (st : ClientState) (job : JobInput) (timeout : Option ℚ)
    (env : WireEnv) : Option (Except Exc ReplyEnvelope) :=
  let j := wrapJob job
  let t := timeout.getD st.timeout_max_overflow
  let resp := env j.serialize t
  match pollLoop resp.attempts with
  | none => none
  | some .isReply => some (.ok resp.reply)
  | some .isTimeout => some (.error (.timeoutError (t / 1000)))
  | some .isError => some (.error .zmqError)

/-- Lines 95-98 and 104 of `Client.execute`: classify a decoded reply by
its success flag, after the overflow bookkeeping has run. -/
def classifyReply (r : ReplyEnvelope) : Except Exc String :=
  if !r.success then
    if r.data = "No worker" then .error .noWorkerError
    else .error (.executionError r.data)
  else .ok r.data

/-- Overwrite one worker's overflow counter (`self.timeout_counters[k] = v`). -/
def setCounter (f : String → ℤ) (k : String) (v : ℤ) : String → ℤ :=
  fun w => if w = k then v else f w

/-- `Client.execute` (lines 59-104). Returns the outcome (result or raised
exception) together with the client state after the call; `none` means the
attempt trace left the call blocked in the poll loop. The deadline defaults
to `timeout_max_overflow` (lines 76-77); `timed` supplies `duration` in
seconds; the overflow bookkeeping (lines 85-93) runs before the success
flag is inspected (lines 95-98). -/
def Client.execute (st : ClientState) (job : JobInput) (timeout : Option ℚ)
    (env : WireEnv) : Option (Except Exc String × ClientState) :=
  let t := timeout.getD st.timeout_max_overflow
  match Client._execute st job (some t) env with
  | none => none
  | some (.error e) => some (.error e, st)
  | some (.ok reply) =>
    let duration := (env (wrapJob job).serialize t).duration
    if duration * 1000 > st.timeout then
      let c := st.timeout_counters reply.worker_pid + 1
      let st' := { st with timeout_counters := setCounter st.timeout_counters reply.worker_pid c }
      if c > st.timeout_overflows then
        some (.error (.timeoutError (t / 1000)), st')
      else
        some (classifyReply reply, st')
    else
      let st' := { st with timeout_counters := setCounter st.timeout_counters reply.worker_pid 0 }
      some (classifyReply reply, st')

/-- Result of `Client.ping`: `None`, the reply parsed as an integer, or the
reply passed through unparsed (only reachable when `int(res)` raises
`TypeError`, i.e. for a non-string reply). -/
inductive PingResult
  | nothing
  | intVal (n : ℤ)
  | strVal (s : String)
deriving DecidableEq, Repr

/-- Decimal digit value of a character, if any. -/
def charToDigit (c : Char) : Option ℕ :=
  if '0' ≤ c ∧ c ≤ '9' then some (c.toNat - '0'.toNat) else none

/-- Accumulate the decimal value of a digit string; `none` on the first
non-digit character. -/
def digitsValAux : List Char → ℕ → Option ℕ
  | [], acc => some acc
  | c :: cs, acc =>
    match charToDigit c with
    | none => none
    | some d => digitsValAux cs (10 * acc + d)

/-- Python's `int()` applied to a string: the parsed integer when the
content permits (an optional minus sign followed by decimal digits),
failure (a `ValueError`) otherwise. -/
def pyIntOfString (s : String) : Option ℤ :=
  match s.data with
  | [] => none
  | c :: cs =>
    if c = '-' then
      match cs with
      | [] => none
      | _ :: _ => (digitsValAux cs 0).map (fun n => -(n : ℤ))
    else (digitsValAux (c :: cs) 0).map (fun n => (n : ℤ))

/-- Behaviour of a ping exchange given the poll deadline in ms: poll
attempts and the reply string `recv` would return. -/
def PingEnv : Type := ℚ → List PollAttempt × String

/-- `Client.ping` (lines 106-130): poll up to `timeout * 1000` ms retrying
EINTR; any other `ZMQError` returns `None`; with no event, fall through to
`return None`; with a reply, run `int(res)` guarded by `except TypeError` —
since the reply is a string, an unparseable reply raises an uncaught
`ValueError` (a `TypeError` is never raised for a string, so the
pass-through branch is dead for string replies). -/
def Client.ping (_st : ClientState) (timeout : ℚ) (env : PingEnv) :
    Option (Except Exc PingResult) :=
  let resp := env (timeout * 1000)
  match pollLoop resp.1 with
  | none => none
  | some .isError => some (.ok .nothing)
  | some .isTimeout => some (.ok .nothing)
  | some .isReply =>
    match pyIntOfString resp.2 with
    | some n => some (.ok (.intVal n))
    | none => some (.error .valueError)

/-- Effect of `Client.close` (lines 132-138) on the shared transport
context: `ctx.destroy(0)` runs iff `kill_ctx`. -/
def Client.closeDestroysCtx (st : ClientState) : Bool := st.kill_ctx

/-- Configuration a `Pool` stores and feeds to `_create_client`
(lines 182-201). -/
structure PoolParams where
  timeout : ℚ
  timeout_max_overflow : ℚ
  timeout_overflows : ℤ

/-- `Pool._create_client` (lines 198-201): a fresh Client built with the
pool's parameters and `ctx=self.ctx`, i.e. with a context supplied. -/
def Pool._create_client (p : PoolParams) : ClientState :=
  Client.init p.timeout p.timeout_max_overflow p.timeout_overflows true

/-- `Pool.__init__` (lines 182-196): a FIFO queue eagerly filled with
`size` clients. The head of the list is the next client `get` returns;
`put` appends at the back. -/
def Pool.init (size : ℕ) (p : PoolParams) : List ClientState :=
  List.replicate size (Pool._create_client p)

/-- One operation submitted to the pool: `Pool.execute` or `Pool.ping`,
with the wire behaviour it will meet. -/
inductive PoolOp
  | exec (job : JobInput) (timeout : Option ℚ) (env : WireEnv)
  | pingOp (timeout : ℚ) (env : PingEnv)

/-- Value a successful pool call returns. -/
inductive PoolVal
  | execVal (data : String)
  | pingVal (v : PingResult)
deriving DecidableEq, Repr

/-- Effect of `Pool.close` (lines 222-223) on the shared transport
context: `ctx.destroy(0)` runs unconditionally. -/
def Pool.closeDestroysCtx : Bool := true

/-- `Pool._connector` + `Pool.execute` / `Pool.ping` (lines 203-227) on a
sequential pool: pop the client at the head of the queue, run the client
operation; on success push the (possibly updated) client back; on any
exception close and discard it, push a freshly created client, and
propagate the exception unchanged. `none` means the call blocked (empty
queue, or the client call never left its poll loop). -/
def Pool.step (p : PoolParams) (ps : List ClientState) (op : PoolOp) :
    Option (Except Exc PoolVal × List ClientState) :=
  match ps with
  | [] => none
  | c :: rest =>
    match op with
    | .exec job timeout env =>
      match Client.execute c job timeout env with
      | none => none
      | some (.error e, _) => some (.error e, rest ++ [Pool._create_client p])
      | some (.ok d, c') => some (.ok (.execVal d), rest ++ [c'])
    | .pingOp timeout env =>
      match Client.ping c timeout env with
      | none => none
      | some (.error e) => some (.error e, rest ++ [Pool._create_client p])
      | some (.ok v) => some (.ok (.pingVal v), rest ++ [c])

/-- A finite sequence of non-concurrent pool calls; a blocked call leaves
the pool as it was. -/
def Pool.run (p : PoolParams) (ps : List ClientState) : List PoolOp → List ClientState
  | [] => ps
  | op :: ops =>
    match Pool.step p ps op with
    | none => ps
    | some (_, ps') => Pool.run p ps' ops

/-! Helper lemmas. -/

/-- When the poll trace ends in a POLLIN event, `_execute` hands back the
decoded reply. -/
theorem _execute_reply_eq (st : ClientState) (job : JobInput) (t : ℚ) (env : WireEnv)
    (h : pollLoop (env (wrapJob job).serialize t).attempts = some .isReply) :
    Client._execute st job (some t) env = some (.ok (env (wrapJob job).serialize t).reply) := by
  unfold Client._execute
  simp only [Option.getD_some]
  rw [h]

/-- When the poll trace ends without an event, `_execute` raises
`TimeoutError(t / 1000)`. -/
theorem _execute_timeout_eq (st : ClientState) (job : JobInput) (t : ℚ) (env : WireEnv)
    (h : pollLoop (env (wrapJob job).serialize t).attempts = some .isTimeout) :
    Client._execute st job (some t) env = some (.error (.timeoutError (t / 1000))) := by
  unfold Client._execute
  simp only [Option.getD_some]
  rw [h]

/-- When the poll trace ends in a non-EINTR error, `_execute` propagates it. -/
theorem _execute_error_eq (st : ClientState) (job : JobInput) (t : ℚ) (env : WireEnv)
    (h : pollLoop (env (wrapJob job).serialize t).attempts = some .isError) :
    Client._execute st job (some t) env = some (.error .zmqError) := by
  unfold Client._execute
  simp only [Option.getD_some]
  rw [h]

/-- A completed pool call preserves the queue length. -/
theorem Pool.step_length (p : PoolParams) (ps ps' : List ClientState) (op : PoolOp)
    (r : Except Exc PoolVal) (h : Pool.step p ps op = some (r, ps')) :
    ps'.length = ps.length := by
  match ps with
  | [] => simp [Pool.step] at h
  | c :: rest =>
    cases op with
    | exec job timeout env =>
      simp only [Pool.step] at h
      cases hc : Client.execute c job timeout env with
      | none => rw [hc] at h; exact absurd h (by simp)
      | some v =>
        rw [hc] at h
        match v with
        | (.error e, st2) => simp only [Option.some.injEq, Prod.mk.injEq] at h; rw [← h.2]; simp
        | (.ok d, c') => simp only [Option.some.injEq, Prod.mk.injEq] at h; rw [← h.2]; simp
    | pingOp timeout env =>
      simp only [Pool.step] at h
      cases hc : Client.ping c timeout env with
      | none => rw [hc] at h; exact absurd h (by simp)
      | some v =>
        rw [hc] at h
        match v with
        | .error e => simp only [Option.some.injEq, Prod.mk.injEq] at h; rw [← h.2]; simp
        | .ok d => simp only [Option.some.injEq, Prod.mk.injEq] at h; rw [← h.2]; simp

/-- A finite sequence of pool calls preserves the queue length. -/
theorem Pool.run_length (p : PoolParams) (ops : List PoolOp) (ps : List ClientState) :
    (Pool.run p ps ops).length = ps.length := by
  induction ops generalizing ps with
  | nil => rfl
  | cons op ops ih =>
    simp only [Pool.run]
    cases h : Pool.step p ps op with
    | none => rfl
    | some v =>
      match v with
      | (r, ps') => rw [ih ps', Pool.step_length p ps ps' op r h]

/-- Shape of `Client.execute` when `_execute` raises: the exception
propagates and the state is untouched. -/
theorem execute_raised_case (st : ClientState) (job : JobInput) (timeout : Option ℚ)
    (env : WireEnv) (e : Exc)
    (h : Client._execute st job (some (timeout.getD st.timeout_max_overflow)) env
         = some (.error e)) :
    Client.execute st job timeout env = some (.error e, st) := by
  simp only [Client.execute]
  rw [h]

/-- Shape of `Client.execute` when a reply is decoded: the overflow
bookkeeping of lines 85-93 followed by the classification of lines 95-104. -/
theorem execute_reply_case (st : ClientState) (job : JobInput) (timeout : Option ℚ)
    (env : WireEnv)
    (h : pollLoop (env (wrapJob job).serialize (timeout.getD st.timeout_max_overflow)).attempts
         = some .isReply) :
    Client.execute st job timeout env =
      (let t := timeout.getD st.timeout_max_overflow
       let resp := env (wrapJob job).serialize t
       if resp.duration * 1000 > st.timeout then
         let c := st.timeout_counters resp.reply.worker_pid + 1
         let st' := { st with
           timeout_counters := setCounter st.timeout_counters resp.reply.worker_pid c }
         if c > st.timeout_overflows then some (.error (.timeoutError (t / 1000)), st')
         else some (classifyReply resp.reply, st')
       else
         some (classifyReply resp.reply, { st with
           timeout_counters := setCounter st.timeout_counters resp.reply.worker_pid 0 })) := by
  simp only [Client.execute]
  rw [_execute_reply_eq st job _ env h]

/-! Claim theorems. -/

/-! Concrete fixtures for witnesses and counterexamples. `stBase` is a
client with base timeout 5s (5000 ms), max-overflow 7.5s (7500 ms),
tolerance 1 and all counters at 0; `stPrimed` additionally has worker
`"w1"`'s counter already at 1. -/

def stBase : ClientState :=
  { timeout := 5000, timeout_max_overflow := 7500, timeout_overflows := 1
    timeout_counters := fun _ => 0, kill_ctx := true }

def stPrimed : ClientState :=
  { stBase with timeout_counters := setCounter (fun _ => 0) "w1" 1 }

/-- A successful reply from worker `"w1"` measured at 6 seconds. -/
def envLate : WireEnv := fun _ _ => ⟨[.gotReply], ⟨"w1", true, "out"⟩, 6⟩

/-- A failure reply carrying the sentinel, measured at 6 seconds. -/
def envLateFail : WireEnv := fun _ _ => ⟨[.gotReply], ⟨"w1", false, "No worker"⟩, 6⟩

/-- A failure reply carrying `"boom"`, measured at 2 seconds. -/
def envFastFail : WireEnv := fun _ _ => ⟨[.gotReply], ⟨"w1", false, "boom"⟩, 2⟩

/-- A successful reply from worker `"w1"` measured at 2 seconds. -/
def envFastOk : WireEnv := fun _ _ => ⟨[.gotReply], ⟨"w1", true, "out"⟩, 2⟩

/-- C1: when a reply arrives with measured duration strictly greater than
the base timeout, the replying worker's overflow counter is incremented by
one, and when the incremented counter strictly exceeds the tolerance the
call raises `TimeoutError` even though a valid reply was received. -/
theorem c1_overflow_increments_and_times_out (st : ClientState) (job : JobInput)
    (timeout : Option ℚ) (env : WireEnv)
    (h1 : pollLoop (env (wrapJob job).serialize
            (timeout.getD st.timeout_max_overflow)).attempts = some .isReply)
    (h2 : (env (wrapJob job).serialize
            (timeout.getD st.timeout_max_overflow)).duration * 1000 > st.timeout) :
    ∃ r st', Client.execute st job timeout env = some (r, st')
      ∧ st'.timeout_counters
          (env (wrapJob job).serialize
            (timeout.getD st.timeout_max_overflow)).reply.worker_pid
        = st.timeout_counters
            (env (wrapJob job).serialize
              (timeout.getD st.timeout_max_overflow)).reply.worker_pid + 1
      ∧ (st.timeout_counters
            (env (wrapJob job).serialize
              (timeout.getD st.timeout_max_overflow)).reply.worker_pid + 1
            > st.timeout_overflows
         → r = .error (.timeoutError ((timeout.getD st.timeout_max_overflow) / 1000))) := by
  rw [execute_reply_case st job timeout env h1]
  simp only [if_pos h2]
  by_cases hc : st.timeout_counters
      (env (wrapJob job).serialize
        (timeout.getD st.timeout_max_overflow)).reply.worker_pid + 1
      > st.timeout_overflows
  · rw [if_pos hc]
    exact ⟨_, _, rfl, by simp [setCounter], fun _ => rfl⟩
  · rw [if_neg hc]
    exact ⟨_, _, rfl, by simp [setCounter], fun hcc => absurd hcc hc⟩

/-- C1 witness: worker `"w1"`'s counter is at 1 with tolerance 1; a valid
reply measured at 6s (base 5s) increments the counter to 2 and the call
raises `TimeoutError(7.5)`. -/
theorem c1_witness :
    ∃ r st', Client.execute stPrimed (.str "jobX") none envLate = some (r, st')
      ∧ st'.timeout_counters "w1" = stPrimed.timeout_counters "w1" + 1
      ∧ (stPrimed.timeout_counters "w1" + 1 > stPrimed.timeout_overflows
         → r = .error (.timeoutError (stPrimed.timeout_max_overflow / 1000))) :=
  c1_overflow_increments_and_times_out stPrimed (.str "jobX") none envLate rfl
    (by norm_num [envLate, stPrimed, stBase])

/-- C4: when a reply is decoded with measured duration at most the base
timeout, the replying worker's overflow counter is 0 immediately after the
call (whatever the success flag says). -/
theorem c4_within_base_resets_counter (st : ClientState) (job : JobInput)
    (timeout : Option ℚ) (env : WireEnv)
    (h1 : pollLoop (env (wrapJob job).serialize
            (timeout.getD st.timeout_max_overflow)).attempts = some .isReply)
    (h2 : (env (wrapJob job).serialize
            (timeout.getD st.timeout_max_overflow)).duration * 1000 ≤ st.timeout) :
    ∃ st', Client.execute st job timeout env
        = some (classifyReply
            (env (wrapJob job).serialize (timeout.getD st.timeout_max_overflow)).reply, st')
      ∧ st'.timeout_counters
          (env (wrapJob job).serialize
            (timeout.getD st.timeout_max_overflow)).reply.worker_pid = 0 := by
  rw [execute_reply_case st job timeout env h1]
  simp only [if_neg (not_lt.mpr h2)]
  exact ⟨_, rfl, by simp [setCounter]⟩

/-- C4 witness: a reply measured at 2s with base timeout 5s leaves worker
`"w1"`'s counter (previously 1) at 0. -/
theorem c4_witness :
    ∃ st', Client.execute stPrimed (.str "jobX") none envFastOk
        = some (classifyReply ⟨"w1", true, "out"⟩, st')
      ∧ st'.timeout_counters "w1" = 0 :=
  c4_within_base_resets_counter stPrimed (.str "jobX") none envFastOk rfl
    (by norm_num [envFastOk, stPrimed, stBase])

/-- C7: for every raw string `s`, `Client.execute` on `s` produces an
identical outcome (same result or raised error, and same counter effects)
as `Client.execute` on the Job constructed from `s`: `_execute` wraps a
raw string into a Job before everything else. -/
theorem c7_string_job_equivalence (st : ClientState) (s : String)
    (timeout : Option ℚ) (env : WireEnv) :
    Client.execute st (.str s) timeout env = Client.execute st (.job ⟨s⟩) timeout env := rfl

/-- C8: when `execute` is called with no timeout argument, the poll
deadline handed to the wire is the configured `timeout_max_overflow`, and
if no reply arrives before that deadline the call raises
`TimeoutError(timeout_max_overflow / 1000)` and leaves the state unchanged. -/
theorem c8_default_deadline_timeout (st : ClientState) (job : JobInput) (env : WireEnv)
    (h : pollLoop (env (wrapJob job).serialize st.timeout_max_overflow).attempts
         = some .isTimeout) :
    Client.execute st job none env
      = some (.error (.timeoutError (st.timeout_max_overflow / 1000)), st) := by
  exact execute_raised_case st job none env _
    (_execute_timeout_eq st job st.timeout_max_overflow env h)

/-- C8 witness at a concrete input. -/
theorem c8_witness :
    Client.execute (Client.init 5 (15 / 2) 1 false) (.str "job") none
        (fun _ _ => ⟨[.interrupted, .timedOut], ⟨"w", true, ""⟩, 0⟩)
      = some (.error (.timeoutError ((Client.init 5 (15 / 2) 1 false).timeout_max_overflow / 1000)),
              Client.init 5 (15 / 2) 1 false) :=
  c8_default_deadline_timeout (Client.init 5 (15 / 2) 1 false) (.str "job")
    (fun _ _ => ⟨[.interrupted, .timedOut], ⟨"w", true, ""⟩, 0⟩) rfl

/-- Behaviour of `classifyReply` stated by cases on the reply. -/
theorem classifyReply_spec (r : ReplyEnvelope) :
    (r.success = true → classifyReply r = .ok r.data)
    ∧ (r.success = false → r.data = "No worker" → classifyReply r = .error .noWorkerError)
    ∧ (r.success = false → r.data ≠ "No worker"
       → classifyReply r = .error (.executionError r.data)) :=
  ⟨fun h => by simp [classifyReply, h],
   fun h hd => by simp [classifyReply, h, hd],
   fun h hd => by simp [classifyReply, h, hd]⟩

/-- C10: the overflow bookkeeping runs before the success flag is
inspected. A failure reply within the base timeout still resets the
worker's counter to 0 before `NoWorkerError` / `ExecutionError` is raised;
a late failure reply increments the counter and, once the tolerance is
exceeded, raises `TimeoutError` instead of the failure error. -/
theorem c10_counter_update_before_flag (st : ClientState) (job : JobInput)
    (timeout : Option ℚ) (env : WireEnv) :
    ((pollLoop (env (wrapJob job).serialize
         (timeout.getD st.timeout_max_overflow)).attempts = some .isReply)
     → (env (wrapJob job).serialize
          (timeout.getD st.timeout_max_overflow)).reply.success = false
     → (env (wrapJob job).serialize
          (timeout.getD st.timeout_max_overflow)).duration * 1000 ≤ st.timeout
     → ∃ st' e, Client.execute st job timeout env = some (.error e, st')
         ∧ (e = .noWorkerError
            ∨ e = .executionError
                (env (wrapJob job).serialize
                  (timeout.getD st.timeout_max_overflow)).reply.data)
         ∧ st'.timeout_counters
             (env (wrapJob job).serialize
               (timeout.getD st.timeout_max_overflow)).reply.worker_pid = 0)
    ∧ ((pollLoop (env (wrapJob job).serialize
          (timeout.getD st.timeout_max_overflow)).attempts = some .isReply)
     → (env (wrapJob job).serialize
          (timeout.getD st.timeout_max_overflow)).reply.success = false
     → (env (wrapJob job).serialize
          (timeout.getD st.timeout_max_overflow)).duration * 1000 > st.timeout
     → st.timeout_counters
         (env (wrapJob job).serialize
           (timeout.getD st.timeout_max_overflow)).reply.worker_pid + 1
         > st.timeout_overflows
     → ∃ st', Client.execute st job timeout env
           = some (.error (.timeoutError ((timeout.getD st.timeout_max_overflow) / 1000)), st')
         ∧ st'.timeout_counters
             (env (wrapJob job).serialize
               (timeout.getD st.timeout_max_overflow)).reply.worker_pid
           = st.timeout_counters
               (env (wrapJob job).serialize
                 (timeout.getD st.timeout_max_overflow)).reply.worker_pid + 1) := by
  constructor
  · intro h1 hs h2
    rw [execute_reply_case st job timeout env h1]
    simp only [if_neg (not_lt.mpr h2)]
    by_cases hd : (env (wrapJob job).serialize
        (timeout.getD st.timeout_max_overflow)).reply.data = "No worker"
    · exact ⟨_, _, by rw [(classifyReply_spec _).2.1 hs hd], Or.inl rfl, by simp [setCounter]⟩
    · exact ⟨_, _, by rw [(classifyReply_spec _).2.2 hs hd], Or.inr rfl, by simp [setCounter]⟩
  · intro h1 _hs h2 hc
    rw [execute_reply_case st job timeout env h1]
    simp only [if_pos h2, if_pos hc]
    exact ⟨_, rfl, by simp [setCounter]⟩

/-- C10 witness: a fast failure reply (`"boom"`, 2s) leaves the counter at
0 and raises `ExecutionError`; a late sentinel failure reply (6s) with the
counter at the tolerance raises `TimeoutError` with the counter at 2. -/
theorem c10_witness :
    (∃ st' e, Client.execute stBase (.str "jobX") none envFastFail = some (.error e, st')
       ∧ (e = .noWorkerError ∨ e = .executionError "boom")
       ∧ st'.timeout_counters "w1" = 0)
    ∧ (∃ st', Client.execute stPrimed (.str "jobX") none envLateFail
          = some (.error (.timeoutError (stPrimed.timeout_max_overflow / 1000)), st')
        ∧ st'.timeout_counters "w1" = stPrimed.timeout_counters "w1" + 1) :=
  ⟨(c10_counter_update_before_flag stBase (.str "jobX") none envFastFail).1 rfl rfl
     (by norm_num [envFastFail, stBase]),
   (c10_counter_update_before_flag stPrimed (.str "jobX") none envLateFail).2 rfl rfl
     (by norm_num [envLateFail, stPrimed, stBase])
     (by norm_num [envLateFail, stPrimed, stBase, setCounter])⟩

/-- C2 as stated is false: the overflow-tolerance check runs first and can
raise `TimeoutError` before the success flag is inspected. Concretely, with
worker `"w1"`'s counter at the tolerance, a 6-second failure reply carrying
the sentinel `"No worker"` is answered with `TimeoutError`, not
`NoWorkerError`. -/
theorem c2_counterexample :
    (envLateFail "jobX" 7500).reply.success = false
    ∧ (envLateFail "jobX" 7500).reply.data = "No worker"
    ∧ pollLoop (envLateFail "jobX" 7500).attempts = some .isReply
    ∧ (Client.execute stPrimed (.str "jobX") none envLateFail).map Prod.fst
        = some (.error (.timeoutError (stPrimed.timeout_max_overflow / 1000)))
    ∧ (some (.error (.timeoutError (stPrimed.timeout_max_overflow / 1000)))
        : Option (Except Exc String))
      ≠ some (.error .noWorkerError) := by
  refine ⟨rfl, rfl, rfl, ?_, by simp⟩
  rw [execute_reply_case stPrimed (.str "jobX") none envLateFail rfl]
  norm_num [envLateFail, stPrimed, stBase, setCounter]

/-- C2 (amended): provided the overflow-tolerance check does not itself
raise (the duration is within the base timeout, or the incremented counter
stays within the tolerance), a decoded reply with `success = false` raises
`NoWorkerError` when the payload is the sentinel `"No worker"` and
`ExecutionError` carrying the payload otherwise, and a reply with
`success = true` returns the payload. -/
theorem c2_reply_classification (st : ClientState) (job : JobInput)
    (timeout : Option ℚ) (env : WireEnv)
    (h1 : pollLoop (env (wrapJob job).serialize
            (timeout.getD st.timeout_max_overflow)).attempts = some .isReply)
    (hno : (env (wrapJob job).serialize
             (timeout.getD st.timeout_max_overflow)).duration * 1000 ≤ st.timeout
           ∨ st.timeout_counters
               (env (wrapJob job).serialize
                 (timeout.getD st.timeout_max_overflow)).reply.worker_pid + 1
             ≤ st.timeout_overflows) :
    ∃ r st', Client.execute st job timeout env = some (r, st')
      ∧ ((env (wrapJob job).serialize
            (timeout.getD st.timeout_max_overflow)).reply.success = true
         → r = .ok (env (wrapJob job).serialize
                     (timeout.getD st.timeout_max_overflow)).reply.data)
      ∧ ((env (wrapJob job).serialize
            (timeout.getD st.timeout_max_overflow)).reply.success = false
         → (env (wrapJob job).serialize
              (timeout.getD st.timeout_max_overflow)).reply.data = "No worker"
         → r = .error .noWorkerError)
      ∧ ((env (wrapJob job).serialize
            (timeout.getD st.timeout_max_overflow)).reply.success = false
         → (env (wrapJob job).serialize
              (timeout.getD st.timeout_max_overflow)).reply.data ≠ "No worker"
         → r = .error (.executionError
             (env (wrapJob job).serialize
               (timeout.getD st.timeout_max_overflow)).reply.data)) := by
  rw [execute_reply_case st job timeout env h1]
  by_cases hd : (env (wrapJob job).serialize
      (timeout.getD st.timeout_max_overflow)).duration * 1000 > st.timeout
  · have hc := hno.resolve_left (not_le.mpr hd)
    simp only [if_pos hd, if_neg (not_lt.mpr hc)]
    exact ⟨_, _, rfl, fun h => (classifyReply_spec _).1 h,
      fun h h2 => (classifyReply_spec _).2.1 h h2,
      fun h h2 => (classifyReply_spec _).2.2 h h2⟩
  · simp only [if_neg hd]
    exact ⟨_, _, rfl, fun h => (classifyReply_spec _).1 h,
      fun h h2 => (classifyReply_spec _).2.1 h h2,
      fun h h2 => (classifyReply_spec _).2.2 h h2⟩

/-- C2 witness: a fast failure reply carrying `"boom"` raises
`ExecutionError("boom")`. -/
theorem c2_witness :
    ∃ r st', Client.execute stBase (.str "jobX") none envFastFail = some (r, st')
      ∧ (false = true → r = .ok "boom")
      ∧ (false = false → ("boom" : String) = "No worker" → r = .error .noWorkerError)
      ∧ (false = false → ("boom" : String) ≠ "No worker"
         → r = .error (.executionError "boom")) :=
  c2_reply_classification stBase (.str "jobX") none envFastFail rfl
    (Or.inl (by norm_num [envFastFail, stBase]))

/-- C9: `Client.close` destroys the shared transport context iff no
context was supplied externally at construction (`kill_ctx = ctx is None`),
while `Pool.close` destroys the context unconditionally. -/
theorem c9_close_ctx_ownership (t movf : ℚ) (ovf : ℤ) (ctx_supplied : Bool) :
    Client.closeDestroysCtx (Client.init t movf ovf ctx_supplied) = !ctx_supplied
    ∧ Pool.closeDestroysCtx = true :=
  ⟨rfl, rfl⟩

/-- A wait that fails with a non-EINTR error after one EINTR retry. -/
def envFatal : WireEnv := fun _ _ => ⟨[.interrupted, .failed], ⟨"w1", true, ""⟩, 0⟩

/-- A ping wait that fails with a non-EINTR error after one EINTR retry. -/
def pingFatalEnv : PingEnv := fun _ => ([.interrupted, .failed], "1234")

/-- A ping wait whose deadline elapses with no event. -/
def pingTimeoutEnv : PingEnv := fun _ => ([.interrupted, .timedOut], "1234")

/-- A ping answered with an integral broker identifier. -/
def pingIntEnv : PingEnv := fun _ => ([.gotReply], "1234")

/-- A ping answered with a non-integral identifier. -/
def pingBadEnv : PingEnv := fun _ => ([.gotReply], "identity-abc")

/-- C6: a wait interrupted by EINTR is retried rather than failing, while
any other wait-layer error ends the call — propagated from `execute`,
converted to a `None` result from `ping`. -/
theorem c6_wait_error_policy :
    (∀ rest, pollLoop (.interrupted :: rest) = pollLoop rest)
    ∧ (∀ (st : ClientState) (job : JobInput) (timeout : Option ℚ) (env : WireEnv),
        pollLoop (env (wrapJob job).serialize
          (timeout.getD st.timeout_max_overflow)).attempts = some .isError
        → Client.execute st job timeout env = some (.error .zmqError, st))
    ∧ (∀ (st : ClientState) (timeout : ℚ) (env : PingEnv),
        pollLoop (env (timeout * 1000)).1 = some .isError
        → Client.ping st timeout env = some (.ok .nothing)) := by
  refine ⟨fun _ => rfl, ?_, ?_⟩
  · intro st job timeout env h
    exact execute_raised_case st job timeout env _ (_execute_error_eq st job _ env h)
  · intro st timeout env h
    simp only [Client.ping]
    rw [h]

/-- C6 witness: a trace `[EINTR, fatal]` makes `execute` propagate the
wait error and makes `ping` return `None`. -/
theorem c6_witness :
    Client.execute stBase (.str "jobX") none envFatal = some (.error .zmqError, stBase)
    ∧ Client.ping stBase 1 pingFatalEnv = some (.ok .nothing) :=
  ⟨c6_wait_error_policy.2.1 stBase (.str "jobX") none envFatal rfl,
   c6_wait_error_policy.2.2 stBase 1 pingFatalEnv rfl⟩

/-- C5: `ping` as implemented. No event or a fatal wait error yields
`None`, and an integral reply is parsed; but an unparseable reply makes
`int(res)` raise `ValueError`, which the `except TypeError` clause does not
catch, so `ping` raises instead of passing the reply through as received
(the claim's pass-through case never happens for a string reply). -/
theorem c5_ping_behaviour :
    Client.ping stBase 1 pingTimeoutEnv = some (.ok .nothing)
    ∧ Client.ping stBase 1 pingFatalEnv = some (.ok .nothing)
    ∧ Client.ping stBase 1 pingIntEnv = some (.ok (.intVal 1234))
    ∧ Client.ping stBase 1 pingBadEnv = some (.error .valueError)
    ∧ pyIntOfString "identity-abc" = none
    ∧ (∀ s, Client.ping stBase 1 (fun _ => ([.gotReply], s)) ≠ some (.ok (.strVal s))) := by
  refine ⟨rfl, rfl, rfl, rfl, rfl, ?_⟩
  intro s
  simp only [Client.ping, pollLoop]
  cases h : pyIntOfString s <;> simp [h]

/-- Pool parameters matching the defaults (base 5s, overflow 7.5s,
tolerance 1). -/
def pDefault : PoolParams := ⟨5, 15 / 2, 1⟩

/-- A wait whose deadline elapses with no event. -/
def envTimeout : WireEnv := fun _ _ => ⟨[.timedOut], ⟨"w1", true, ""⟩, 0⟩

/-- C3: a pool call whose client operation raises discards the client,
pushes a freshly constructed replacement, and propagates the exception
unchanged; consequently any finite sequence of non-concurrent pool calls
leaves exactly `size` clients in the queue. -/
theorem c3_pool_replacement_and_size :
    (∀ (p : PoolParams) (c : ClientState) (rest : List ClientState) (job : JobInput)
        (timeout : Option ℚ) (env : WireEnv) (e : Exc) (stAfter : ClientState),
        Client.execute c job timeout env = some (.error e, stAfter)
        → Pool.step p (c :: rest) (.exec job timeout env)
            = some (.error e, rest ++ [Pool._create_client p]))
    ∧ (∀ (p : PoolParams) (c : ClientState) (rest : List ClientState) (timeout : ℚ)
        (env : PingEnv) (e : Exc),
        Client.ping c timeout env = some (.error e)
        → Pool.step p (c :: rest) (.pingOp timeout env)
            = some (.error e, rest ++ [Pool._create_client p]))
    ∧ (∀ (p : PoolParams) (size : ℕ) (ops : List PoolOp),
        (Pool.run p (Pool.init size p) ops).length = size) := by
  refine ⟨?_, ?_, ?_⟩
  · intro p c rest job timeout env e stAfter h
    simp only [Pool.step]
    rw [h]
  · intro p c rest timeout env e h
    simp only [Pool.step]
    rw [h]
  · intro p size ops
    rw [Pool.run_length]
    simp [Pool.init]

/-- C3 witness: a timed-out execute call on a one-client pool propagates
`TimeoutError` and the queue again holds one (fresh) client; a failing ping
likewise; a concrete three-call run of a two-client pool keeps size 2. -/
theorem c3_witness :
    Pool.step pDefault [Pool._create_client pDefault] (.exec (.str "jobX") none envTimeout)
      = some (.error (.timeoutError ((Pool._create_client pDefault).timeout_max_overflow / 1000)),
              [] ++ [Pool._create_client pDefault])
    ∧ Pool.step pDefault [Pool._create_client pDefault] (.pingOp 1 pingBadEnv)
      = some (.error .valueError, [] ++ [Pool._create_client pDefault])
    ∧ (Pool.run pDefault (Pool.init 2 pDefault)
         [.exec (.str "jobX") none envTimeout, .pingOp 1 pingBadEnv,
          .exec (.str "jobX") none envFastOk]).length = 2 :=
  ⟨c3_pool_replacement_and_size.1 pDefault (Pool._create_client pDefault) [] (.str "jobX")
     none envTimeout _ _ rfl,
   c3_pool_replacement_and_size.2.1 pDefault (Pool._create_client pDefault) [] 1 pingBadEnv
     _ rfl,
   c3_pool_replacement_and_size.2.2 pDefault 2
     [.exec (.str "jobX") none envTimeout, .pingOp 1 pingBadEnv,
      .exec (.str "jobX") none envFastOk]⟩

end Powerhose
